import Mathlib

/-!
Verification of the repository-map engine of emigo (src/repomapper.py)
against its natural-language specification.

The Python module is shallowly embedded: each definition below transcribes a
function, method or code block of repomapper.py (the source line numbers are
given in the doc comments).  Python lists become Lean lists, Python sets
become lists used only through membership / emptiness / cardinality /
sorted views, Python dicts keyed by strings become Lean functions built by
filtering the tag list (this matches the rebuild loop of
RepoMap._scan_all_tags, which derives every mapping from the master list
self._all_tags), Python ints become Int/Nat, Python floats that hold token
counts or modification times become rationals modelling the exact values,
and math.sqrt becomes Real.sqrt.  External collaborators (the networkx
PageRank call, the tiktoken tokenizer, the tree renderer) are modelled as
parameters: the theorems proved here are about the code that consumes
their results.
-/

namespace EmigoRepoMap

/-- Tag tuple from repomapper.py line 262:
TagInfo = (rel_fname, abs_fname, line, name, kind) with kind "def" or "ref"
and line = -1 for pygments fallback references. -/
structure TagInfo where
  rel_fname : String
  abs_fname : String
  line : Int
  name : String
  kind : String
deriving DecidableEq, Repr

/-- The mapping self._defines rebuilt in RepoMap._scan_all_tags
(repomapper.py lines 574-583): name maps to the set of rel_fnames holding a
def tag with that name.  The Python set is represented as a deduplicated
list; only membership, emptiness and cardinality of it are used. -/
def defines (tags : List TagInfo) (name : String) : List String :=
  ((tags.filter fun t => decide (t.kind = "def" ∧ t.name = name)).map (·.rel_fname)).dedup

/-- The mapping self._references as first rebuilt in RepoMap._scan_all_tags
(lines 574-585), before the fallback: name maps to the list (duplicates
preserved) of rel_fnames holding a ref tag with that name. -/
def referencesRaw (tags : List TagInfo) (name : String) : List String :=
  (tags.filter fun t => decide (t.kind = "ref" ∧ t.name = name)).map (·.rel_fname)

/-- True iff some tag has kind "def"; equivalently the rebuilt dict
self._defines is non-empty (a defaultdict only gains keys via def tags). -/
def hasDefTag (tags : List TagInfo) : Bool :=
  tags.any fun t => decide (t.kind = "def")

/-- True iff some tag has kind "ref"; equivalently the rebuilt dict
self._references is non-empty before the fallback. -/
def hasRefTag (tags : List TagInfo) : Bool :=
  tags.any fun t => decide (t.kind = "ref")

/-- The mapping self._references after the fallback of
RepoMap._scan_all_tags lines 587-591: when no reference tag exists at all
but definitions do, the references dict is replaced by a copy of the
defines dict. -/
def references (tags : List TagInfo) (name : String) : List String :=
  if hasRefTag tags = false ∧ hasDefTag tags = true then defines tags name
  else referencesRaw tags name

/-- The mapping self._definitions rebuilt in RepoMap._scan_all_tags lines
574-583: the key (rel_fname, name) maps to the set of full def tags with
that file and name. -/
def definitions (tags : List TagInfo) (rel : String) (name : String) : List TagInfo :=
  tags.filter fun t => decide (t.kind = "def" ∧ t.rel_fname = rel ∧ t.name = name)

/-- Stable sort of strings, modelling the Python builtin sorted() on a
collection of relative paths (lexicographic code-point order). -/
def sortStrings (l : List String) : List String :=
  List.insertionSort (· ≤ ·) l

/-- RepoMap.get_related_files (repomapper.py lines 784-872) at the level of
already-resolved relative target paths: part 1 collects the files
referencing an identifier defined in a target, part 2 the files defining an
identifier referenced by a target; targets are removed and the set is
returned sorted.  The Python code iterates over sets and accumulates into a
set; the embedding keeps lists and deduplicates before sorting, which
yields the same sorted duplicate-free result. -/
def get_related_files (tags : List TagInfo) (target_rel_fnames : List String) : List String :=
  if target_rel_fnames.isEmpty then []
  else
    let defs_in_targets :=
      (tags.filter fun t => decide (t.rel_fname ∈ target_rel_fnames ∧ t.kind = "def")).map (·.name)
    let refs_from_targets :=
      (tags.filter fun t => decide (t.rel_fname ∈ target_rel_fnames ∧ t.kind = "ref")).map (·.name)
    let related :=
      defs_in_targets.flatMap (references tags) ++ refs_from_targets.flatMap (defines tags)
    sortStrings ((related.filter fun f => decide (f ∉ target_rel_fnames)).dedup)

/-- Cache record stored by RepoMap.get_tags (repomapper.py line 444):
a dict holding the file modification time and the tag list. -/
structure CacheEntry where
  mtime : ℚ
  data : List TagInfo
deriving DecidableEq, Repr

/-- RepoMap.get_tags (repomapper.py lines 392-451).  Inputs: the tags that
get_tags_raw would produce for the current file content, the current mtime
(none when os.path.getmtime raises FileNotFoundError), the cache entry
stored under the absolute path, and the force_refresh flag.  Output: the
returned tag list, the cache entry after the call, and whether
get_tags_raw was invoked (regeneration).  The typed embedding makes the
isinstance / tuple-shape validity checks of lines 425-436 always succeed,
and models cache reads and writes as always succeeding. -/
def get_tags (extract : List TagInfo) (file_mtime : Option ℚ) (cached : Option CacheEntry)
    (force_refresh : Bool) : List TagInfo × Option CacheEntry × Bool :=
  match file_mtime with
  | none => ([], cached, false)
  | some m =>
    match cached with
    | some entry =>
      if force_refresh = false ∧ entry.mtime = m then (entry.data, some entry, false)
      else (extract, some ⟨m, extract⟩, true)
    | none => (extract, some ⟨m, extract⟩, true)

/-- The dynamic token budget computed by RepoMap.get_repo_map
(repomapper.py lines 353-358): with no chat files and a multiplier above 1
the budget passed to the fitter is map_tokens times map_mul_no_files. -/
def computeMapBudget (map_tokens : ℤ) (map_mul_no_files : ℤ) (chat_files : List String) : ℤ :=
  if chat_files.isEmpty ∧ 1 < map_mul_no_files then map_tokens * map_mul_no_files
  else map_tokens

/-- Test whether the first list of characters begins the second: Python
str.startswith with the pattern given as a character list. -/
def charsStart : List Char → List Char → Bool
  | [], _ => true
  | _ :: _, [] => false
  | p :: ps, c :: cs => p == c && charsStart ps cs

/-- is_snake of repomapper.py line 643: the identifier contains an
underscore and at least one alphabetic character.  Char.isAlpha covers the
ASCII identifiers this heuristic targets. -/
def is_snake (ident : String) : Bool :=
  ident.data.contains '_' && ident.data.any Char.isAlpha

/-- is_camel of repomapper.py line 644: the identifier mixes upper and
lower case. -/
def is_camel (ident : String) : Bool :=
  ident.data.any Char.isUpper && ident.data.any Char.isLower

/-- Identifier multiplier of RepoMap.get_ranked_tags lines 641-653: start
at 1.0, multiply by 5 for important-looking names of length at least 6,
multiply by 0.1 for a leading underscore, multiply by 0.1 again when the
identifier is defined in more than 5 files.  The Python floats 0.1 are
modelled as the exact rational 1/10. -/
def identMul (ident : String) (numDefiners : Nat) : ℚ :=
  let mul : ℚ := 1
  let mul := if (is_snake ident || is_camel ident) = true ∧ 6 ≤ ident.length
    then mul * 5 else mul
  let mul := if charsStart ['_'] ident.data = true then mul * (1/10) else mul
  let mul := if 5 < numDefiners then mul * (1/10) else mul
  mul

/-- Reference count of line 635: how many times referencer refers to ident,
counting only scanned files (referencers_counts of the Counter). -/
def refCount (tags : List TagInfo) (scanned : List String) (ident referencer : String) : Nat :=
  ((references tags ident).filter fun r => decide (r ∈ scanned)).count referencer

/-- use_mul of line 657: the identifier multiplier boosted by 50 when the
referencing file is in chat.  The count of definers fed to the >5 penalty
is len(defines[ident]) from line 652, not restricted to scanned files. -/
def use_mul (tags : List TagInfo) (chat_rel : List String) (ident referencer : String) : ℚ :=
  let mul := identMul ident (defines tags ident).length
  if referencer ∈ chat_rel then mul * 50 else mul

/-- Demonstration tag list: a single definition, no references. -/
def tagsOnlyDefs : List TagInfo :=
  [⟨"a.py", "/repo/a.py", 0, "foo", "def"⟩]

/-- Tag state for the C3 counterexample: identifier _ab defined in six
files and referenced once, so both the leading-underscore and the
many-definers penalties fire. -/
def tagsUnderscore : List TagInfo :=
  [⟨"d1.py", "/repo/d1.py", 0, "_ab", "def"⟩,
   ⟨"d2.py", "/repo/d2.py", 0, "_ab", "def"⟩,
   ⟨"d3.py", "/repo/d3.py", 0, "_ab", "def"⟩,
   ⟨"d4.py", "/repo/d4.py", 0, "_ab", "def"⟩,
   ⟨"d5.py", "/repo/d5.py", 0, "_ab", "def"⟩,
   ⟨"d6.py", "/repo/d6.py", 0, "_ab", "def"⟩,
   ⟨"r.py", "/repo/r.py", 3, "_ab", "ref"⟩]

/-- Scanned files for the C3 counterexample state. -/
def scannedUnderscore : List String :=
  ["d1.py", "d2.py", "d3.py", "d4.py", "d5.py", "d6.py", "r.py"]

/-- Split a path at slashes, as os.path.basename and os.path.dirname do for
the POSIX flavour used by this code. -/
def splitSlashAux : List Char → List Char → List String
  | [], acc => [String.mk acc.reverse]
  | c :: cs, acc =>
    if c = '/' then String.mk acc.reverse :: splitSlashAux cs []
    else splitSlashAux cs (c :: acc)

/-- Segments of a slash-separated path. -/
def splitSlash (p : String) : List String :=
  splitSlashAux p.data []

/-- Rejoin path segments with slashes. -/
def joinSlash : List String → String
  | [] => ""
  | [x] => x
  | x :: xs => x ++ "/" ++ joinSlash xs

/-- os.path.basename for POSIX paths without a trailing slash. -/
def basename (p : String) : String :=
  (splitSlash p).getLastD ""

/-- os.path.dirname for POSIX paths without a trailing slash. -/
def dirname (p : String) : String :=
  joinSlash (splitSlash p).dropLast

/-- os.path.normpath restricted to the already-normal paths this code
feeds it (no duplicate slashes, no dot segments, no trailing slash): the
identity, except that the empty string normalizes to ".". -/
def normpath (p : String) : String :=
  if p = "" then "." else p

/-- Python str.endswith formulated over reversed character lists. -/
def strEnds (pat p : String) : Bool :=
  charsStart pat.data.reverse p.data.reverse

/-- ROOT_IMPORTANT_FILES_LIST of repomapper.py lines 75-249.  Every entry
is already normal, so the NORMALIZED_ROOT_IMPORTANT_FILES set of line 251
holds exactly these strings. -/
def ROOT_IMPORTANT_FILES_LIST : List String :=
  [".gitignore", ".gitattributes",
   "README", "README.md", "README.txt", "README.rst",
   "CONTRIBUTING", "CONTRIBUTING.md", "CONTRIBUTING.txt", "CONTRIBUTING.rst",
   "LICENSE", "LICENSE.md", "LICENSE.txt",
   "CHANGELOG", "CHANGELOG.md", "CHANGELOG.txt", "CHANGELOG.rst",
   "SECURITY", "SECURITY.md", "SECURITY.txt", "CODEOWNERS",
   "requirements.txt", "Pipfile", "Pipfile.lock", "pyproject.toml",
   "setup.py", "setup.cfg", "package.json", "package-lock.json",
   "yarn.lock", "npm-shrinkwrap.json", "Gemfile", "Gemfile.lock",
   "composer.json", "composer.lock", "pom.xml", "build.gradle",
   "build.gradle.kts", "build.sbt", "go.mod", "go.sum", "Cargo.toml",
   "Cargo.lock", "mix.exs", "rebar.config", "project.clj", "Podfile",
   "Cartfile", "dub.json", "dub.sdl",
   ".env", ".env.example", ".editorconfig", "tsconfig.json",
   "jsconfig.json", ".babelrc", "babel.config.js", ".eslintrc",
   ".eslintignore", ".prettierrc", ".stylelintrc", "tslint.json",
   ".pylintrc", ".flake8", ".rubocop.yml", ".scalafmt.conf",
   ".dockerignore", ".gitpod.yml", "sonar-project.properties",
   "renovate.json", "dependabot.yml", ".pre-commit-config.yaml",
   "mypy.ini", "tox.ini", ".yamllint", "pyrightconfig.json",
   "webpack.config.js", "rollup.config.js", "parcel.config.js",
   "gulpfile.js", "Gruntfile.js", "build.xml", "build.boot",
   "project.json", "build.cake", "MANIFEST.in",
   "pytest.ini", "phpunit.xml", "karma.conf.js", "jest.config.js",
   "cypress.json", ".nycrc", ".nycrc.json",
   ".travis.yml", ".gitlab-ci.yml", "Jenkinsfile", "azure-pipelines.yml",
   "bitbucket-pipelines.yml", "appveyor.yml", "circle.yml",
   ".circleci/config.yml", ".github/dependabot.yml", "codecov.yml",
   ".coveragerc",
   "Dockerfile", "docker-compose.yml", "docker-compose.override.yml",
   "serverless.yml", "firebase.json", "now.json", "netlify.toml",
   "vercel.json", "app.yaml", "terraform.tf", "main.tf",
   "cloudformation.yaml", "cloudformation.json", "ansible.cfg",
   "kubernetes.yaml", "k8s.yaml",
   "schema.sql", "liquibase.properties", "flyway.conf",
   "next.config.js", "nuxt.config.js", "vue.config.js", "angular.json",
   "gatsby-config.js", "gridsome.config.js",
   "swagger.yaml", "swagger.json", "openapi.yaml", "openapi.json",
   ".nvmrc", ".ruby-version", ".python-version", "Vagrantfile",
   ".codeclimate.yml", "codecov.yml",
   "mkdocs.yml", "_config.yml", "book.toml", "readthedocs.yml",
   ".readthedocs.yaml",
   ".npmrc", ".yarnrc",
   ".isort.cfg", ".markdownlint.json", ".markdownlint.yaml",
   ".bandit", ".secrets.baseline",
   ".pypirc", ".gitkeep", ".npmignore"]

/-- is_important of repomapper.py lines 287-297: a GitHub workflow file
check on the directory part, then membership of the normalized path in the
allow-list. -/
def is_important (file_path : String) : Bool :=
  let file_name := basename file_path
  let dir_name := normpath (dirname file_path)
  let np := normpath file_path
  (dir_name == ".github/workflows" && (strEnds ".yml" file_name || strEnds ".yaml" file_name))
    || ROOT_IMPORTANT_FILES_LIST.contains np

/-- filter_important_files of repomapper.py lines 299-301. -/
def filter_important_files (file_paths : List String) : List String :=
  file_paths.filter is_important

/-- get_rel_fname of repomapper.py lines 276-282 (os.path.relpath from the
root), restricted to the shapes the engine feeds it: a path strictly under
the root loses the root plus the slash, anything else is returned as given
(the ValueError branch of the source). -/
def get_rel_fname (fname root : String) : String :=
  if charsStart (root.data ++ ['/']) fname.data then
    String.mk (fname.data.drop (root.data.length + 1))
  else fname

/-- Item of the ranked list built by RepoMap.get_ranked_tags: a TagInfo
tuple for a ranked definition, or a FileNamePlaceholder (rel_fname,)
(repomapper.py lines 262-263). -/
inductive RankedItem where
  | tag (t : TagInfo)
  | placeholder (rel : String)
deriving DecidableEq, Repr

/-- Element 0 of either tuple shape: its relative path. -/
def RankedItem.rel : RankedItem → String
  | .tag t => t.rel_fname
  | .placeholder r => r

/-- Sort key of repomapper.py line 728: the tuple
(rank, rel_fname, ident) under the lexicographic order. -/
def defKey (x : (String × String) × ℚ) : ℚ ×ₗ (String ×ₗ String) :=
  toLex (x.2, toLex (x.1.1, x.1.2))

/-- Order used for sorted(..., reverse=True) at lines 726-730: x comes
before y when its key is at least the key of y (descending, stable on
ties exactly as the stable Python sort). -/
def defKeyRel (x y : (String × String) × ℚ) : Prop :=
  defKey y ≤ defKey x

instance : DecidableRel defKeyRel :=
  fun x y => inferInstanceAs (Decidable (defKey y ≤ defKey x))

/-- Order used for sorted(..., key=rank, reverse=True) at lines 766-770:
descending file rank. -/
def rankDescRel (ranked_files : String → ℚ) (x y : String) : Prop :=
  ranked_files y ≤ ranked_files x

instance (rf : String → ℚ) : DecidableRel (rankDescRel rf) :=
  fun x y => inferInstanceAs (Decidable (rf y ≤ rf x))

/-- Inner loop of repomapper.py lines 740-748: walk the def tags of one
(rel_fname, ident) group, appending tags whose (rel_fname, line, name) key
is new to processed_tags and recording the file in
fnames_with_ranked_tags.  Returns the appended tags and the updated
processed_tags and fnames_with_ranked_tags accumulators. -/
def addGroup : List TagInfo → List (String × Int × String) → List String →
    List TagInfo × List (String × Int × String) × List String
  | [], processed, fnames => ([], processed, fnames)
  | t :: ts, processed, fnames =>
    if (t.rel_fname, t.line, t.name) ∈ processed then addGroup ts processed fnames
    else
      let rest := addGroup ts ((t.rel_fname, t.line, t.name) :: processed)
        (t.rel_fname :: fnames)
      (t :: rest.1, rest.2)

/-- Outer loop of repomapper.py lines 735-748: walk the rank-sorted
(rel_fname, ident) pairs, skip those whose file is in chat, and expand the
rest through their definitions entry.  Returns the ranked tag list and the
final fnames_with_ranked_tags. -/
def collectTags (chat_rel : List String) (defsIndex : String → String → List TagInfo) :
    List ((String × String) × ℚ) → List (String × Int × String) → List String →
    List TagInfo × List String
  | [], _processed, fnames => ([], fnames)
  | ((rel, ident), _rank) :: rest, processed, fnames =>
    if rel ∈ chat_rel then collectTags chat_rel defsIndex rest processed fnames
    else
      let g := addGroup (defsIndex rel ident) processed fnames
      let next := collectTags chat_rel defsIndex rest g.2.1 g.2.2
      (g.1 ++ next.1, next.2)

/-- Final-assembly phase of RepoMap.get_ranked_tags (repomapper.py lines
607-611 and 722-776).  The PageRank call and the rank-distribution loop
(lines 665-719) consume the external networkx library, so their results
enter as parameters: ranked_files is the per-file rank mapping (total,
matching dict.get(f, 0.0)) and ranked_definitions the accumulated
(rel_fname, ident) -> rank items.  tags is self._all_tags after
_scan_all_tags, scanned is self._scanned_fnames, isFile models
Path.is_file, and chat / other fnames are the absolute paths handed in by
get_repo_map. -/
def get_ranked_tags (root : String) (isFile : String → Bool)
    (chat_fnames other_fnames : List String) (tags : List TagInfo)
    (scanned : List String) (ranked_files : String → ℚ)
    (ranked_definitions : List ((String × String) × ℚ)) : List RankedItem :=
  let chat_rel := ((chat_fnames.filter isFile).map (fun f => get_rel_fname f root)).dedup
  let sortedDefs := List.insertionSort defKeyRel ranked_definitions
  let collected := collectTags chat_rel (definitions tags) sortedDefs [] []
  let ranked_tags := collected.1
  let fnamesWithTags := collected.2
  let important_rel :=
    ((filter_important_files other_fnames).map (fun f => get_rel_fname f root)).dedup.filter
      fun f => decide (f ∉ chat_rel ∧ f ∉ fnamesWithTags)
  let important_placeholders := (sortStrings important_rel).map RankedItem.placeholder
  let other_unranked := scanned.filter
    fun f => decide (f ∉ chat_rel ∧ f ∉ fnamesWithTags ∧ f ∉ important_rel)
  let sorted_other := List.insertionSort (rankDescRel ranked_files) other_unranked
  let other_placeholders := sorted_other.map RankedItem.placeholder
  important_placeholders ++ ranked_tags.map RankedItem.tag ++ other_placeholders

/-- Tag state for the ranked-list demonstrations: a.py defines foo. -/
def tagsRepoDemo : List TagInfo :=
  [⟨"a.py", "/repo/a.py", 0, "foo", "def"⟩]

/-- Scanned set for the C4 demonstration: README.md was walked (it yields
no tags) and a.py was walked. -/
def scannedDemo : List String :=
  ["README.md", "a.py"]

/-- Scanned set for the C1 witness: also includes the chat file c.py. -/
def scannedDemoChat : List String :=
  ["README.md", "a.py", "c.py"]

/-- File ranks for the demonstrations (the PageRank output). -/
def rankedFilesDemo : String → ℚ :=
  fun f => if f = "a.py" then 1/2 else 0

/-- Accumulated definition ranks for the demonstrations. -/
def rankedDefsDemo : List ((String × String) × ℚ) :=
  [(("a.py", "foo"), 1/2)]

/-- State of the budget binary search of
RepoMap.get_ranked_tags_map_uncached (repomapper.py lines 896-962).
Rendered trees are identified by their prefix length: bestTree none is the
empty string "" and bestTree (some k) the rendering of the first k ranked
items; lastTree is the Python local variable tree, none while it is still
unbound. -/
structure FitState where
  low : Nat
  high : Nat
  bestTree : Option Nat
  bestTokens : Nat
  bestNum : Nat
  lastTree : Option Nat
deriving DecidableEq, Repr

/-- Result triple (best_tree, best_tokens, best_num_items). -/
abbrev FitOut := Option Nat × Nat × Nat

/-- is_better of repomapper.py lines 933-941.  The float comparisons
num_tokens > 0.95 * T and best_tokens < 0.90 * T are modelled exactly by
integer cross-multiplication. -/
def is_better_check (T num best : Nat) : Bool :=
  if num ≤ T then
    if best ≤ num then true
    else if 95 * T < 100 * num ∧ 100 * best < 90 * T then true
    else false
  else false

/-- One iteration of the while loop of repomapper.py lines 910-958, given
the midpoint already computed: the mid == 0 bookkeeping of lines 915-924,
the render of lines 927-930 (numTokens = c mid, binding the tree variable),
the is_better update of lines 933-944 (assigning best_tree = tree, which
raises UnboundLocalError, modelled as none, when tree was never bound), the
low / high adjustment of lines 947-954 with the exact-match break, and the
early-stop break of lines 957-958.  Sum.inl is a break with the final
result, Sum.inr the state for the next iteration. -/
def fitIter (c : Nat → Nat) (T : Nat) (s0 : FitState) (mid : Nat) :
    Option (FitOut ⊕ FitState) :=
  let s1 := if mid = 0 ∧ s0.bestTokens = 0 then
      { s0 with bestTree := none, bestTokens := 0, bestNum := 0 } else s0
  if mid = 0 ∧ 0 < s1.low then some (Sum.inl (s1.bestTree, s1.bestTokens, s1.bestNum))
  else
    let numTokens := if mid = 0 then 0 else c mid
    let treeBound := if mid = 0 then s1.lastTree.isSome else true
    let treeVal := if mid = 0 then s1.lastTree else some mid
    let s2 := { s1 with lastTree := treeVal }
    if is_better_check T numTokens s2.bestTokens = true ∧ treeBound = false then none
    else
      let s3 := if is_better_check T numTokens s2.bestTokens then
          { s2 with bestTree := treeVal, bestTokens := numTokens, bestNum := mid } else s2
      if numTokens < T then
        let s4 := { s3 with low := mid + 1 }
        if 95 * T < 100 * s4.bestTokens ∧ s4.bestTokens ≤ T then
          some (Sum.inl (s4.bestTree, s4.bestTokens, s4.bestNum))
        else some (Sum.inr s4)
      else if T < numTokens then
        let s4 := { s3 with high := mid - 1 }
        if 95 * T < 100 * s4.bestTokens ∧ s4.bestTokens ≤ T then
          some (Sum.inl (s4.bestTree, s4.bestTokens, s4.bestNum))
        else some (Sum.inr s4)
      else
        if treeBound = false then none
        else some (Sum.inl (treeVal, numTokens, mid))

/-- The while loop of repomapper.py lines 910-958: the fuel argument is
the remaining iteration allowance (iterations < max_iterations) and the
loop guard low <= high is tested first.  Also returns the trace of
midpoints handed to the iterations, for the seeding claim.  A none result
is the UnboundLocalError raised on the unbound tree variable. -/
def fitLoop (c : Nat → Nat) (T : Nat) (N : Nat) :
    Nat → FitState → Option FitOut × List Nat
  | 0, s => (some (s.bestTree, s.bestTokens, s.bestNum), [])
  | fuel + 1, s =>
    if s.high < s.low then (some (s.bestTree, s.bestTokens, s.bestNum), [])
    else
      let mid := min N ((s.low + s.high) / 2)
      match fitIter c T s mid with
      | none => (none, [mid])
      | some (Sum.inl out) => (some out, [mid])
      | some (Sum.inr s2) =>
        let rest := fitLoop c T N fuel s2
        (rest.1, mid :: rest.2)

/-- Floor of the base-2 logarithm by structural recursion on a fuel bound,
modelling int(math.log2(n)) of line 908 for positive n. -/
def log2Floor : Nat → Nat → Nat
  | 0, _ => 0
  | fuel + 1, n => if 2 ≤ n then log2Floor fuel (n / 2) + 1 else 0

/-- The budget fitter of RepoMap.get_ranked_tags_map_uncached lines
893-962 abstracted over the deterministic rendering cost c (tokens of the
rendering of the first k ranked items, with to_tree([]) = "" costing 0):
the empty-items early return of lines 893-894, then the binary search with
max_iterations = int(log2(N)) + 5 and initial bounds low = 0, high = N.
The heuristic mid assignment of line 905 is overwritten at line 913 before
any use; the trace component records the midpoints actually evaluated. -/
def fit_ranked_items (c : Nat → Nat) (T : Nat) (N : Nat) : Option FitOut × List Nat :=
  if N = 0 then (some (none, 0, 0), [])
  else fitLoop c T N (log2Floor N N + 5)
    { low := 0, high := N, bestTree := none, bestTokens := 0, bestNum := 0, lastTree := none }

/-- The heuristic start point of line 905:
mid = min(int(current_max_map_tokens / 25), num_items) if num_items else 0. -/
def heuristicSeed (T : Nat) (N : Nat) : Nat :=
  if 0 < N then min (T / 25) N else 0

/-- A monotone rendering-cost function for ten ranked items, used by the
budget-fitter demonstrations. -/
def demoCost : Nat → Nat
  | 0 => 0
  | 1 => 50
  | 2 => 80
  | 3 => 100
  | 4 => 150
  | 5 => 200
  | _ => 300

/-- Token count of the string the fitter returns: cost of the returned
prefix, 0 for the empty string and for a crash. -/
def outputTokens (c : Nat → Nat) (res : Option FitOut × List Nat) : Nat :=
  match res.1 with
  | some (some k, _, _) => c k
  | some (none, _, _) => 0
  | none => 0

/-- Predicate: some tag in a target file defines the identifier (the set
defs_in_targets of repomapper.py lines 835-839). -/
def DefinedInTargets (tags : List TagInfo) (targets : List String) (ident : String) : Prop :=
  ∃ t ∈ tags, t.rel_fname ∈ targets ∧ t.kind = "def" ∧ t.name = ident

/-- Predicate: some tag in a target file references the identifier (the
set refs_from_targets of repomapper.py lines 851-855). -/
def ReferencedByTargets (tags : List TagInfo) (targets : List String) (ident : String) : Prop :=
  ∃ t ∈ tags, t.rel_fname ∈ targets ∧ t.kind = "ref" ∧ t.name = ident

/-- Claim C5: after a scan, if the rebuilt references mapping is empty while
the defines mapping is non-empty, references equals a copy of defines. -/
theorem references_fallback_copies_defines (tags : List TagInfo)
    (h1 : hasRefTag tags = false) (h2 : hasDefTag tags = true) :
    ∀ name, references tags name = defines tags name := by
  intro name
  simp [references, h1, h2]

/-- Witness for C5 at a concrete scan result with a def tag and no ref tags. -/
theorem references_fallback_witness :
    hasRefTag tagsOnlyDefs = false ∧ hasDefTag tagsOnlyDefs = true ∧
      references tagsOnlyDefs "foo" = defines tagsOnlyDefs "foo" :=
  ⟨by decide, by decide,
    references_fallback_copies_defines tagsOnlyDefs (by decide) (by decide) "foo"⟩

/-- Claim C6: two consecutive get_tags calls at the same modification time
without force_refresh return the same tag list and the second call is a
cache hit (no regeneration). -/
theorem get_tags_second_call_cached (extract : List TagInfo) (m : ℚ)
    (c0 : Option CacheEntry) :
    (get_tags extract (some m) (get_tags extract (some m) c0 false).2.1 false).1
        = (get_tags extract (some m) c0 false).1
    ∧ (get_tags extract (some m) (get_tags extract (some m) c0 false).2.1 false).2.2
        = false := by
  match c0 with
  | none => simp [get_tags]
  | some entry =>
    by_cases h : entry.mtime = m
    · simp [get_tags, h]
    · simp [get_tags, h]

/-- Claim C9: with an empty focus list and multiplier above 1 the budget the
fitter receives is map_tokens times the multiplier, which differs from the
caller-supplied map_tokens whenever map_tokens is positive. -/
theorem budget_scaled_without_chat_files (map_tokens map_mul : ℤ)
    (chat_files : List String) (h1 : chat_files = []) (h2 : 1 < map_mul)
    (h3 : 0 < map_tokens) :
    computeMapBudget map_tokens map_mul chat_files = map_tokens * map_mul
    ∧ computeMapBudget map_tokens map_mul chat_files ≠ map_tokens := by
  subst h1
  constructor
  · simp [computeMapBudget, h2]
  · simp only [computeMapBudget, List.isEmpty_nil, true_and, if_pos h2]
    intro hcontra
    nlinarith [hcontra]

/-- Witness for C9 at the default configuration: 4096 tokens, multiplier 4. -/
theorem budget_scaled_witness :
    computeMapBudget 4096 4 [] = 4096 * 4 ∧ computeMapBudget 4096 4 [] ≠ 4096 :=
  budget_scaled_without_chat_files 4096 4 [] rfl (by decide) (by decide)

/-- Claim C2: get_related_files returns exactly the sorted duplicate-free
list of non-target files that appear in the references multiset of an
identifier defined in a target, or in the defines set of an identifier
referenced by a target. -/
theorem related_files_characterization (tags : List TagInfo) (targets : List String) :
    (∀ F : String, F ∈ get_related_files tags targets ↔
      (F ∉ targets ∧
        ((∃ i, DefinedInTargets tags targets i ∧ F ∈ references tags i) ∨
         (∃ i, ReferencedByTargets tags targets i ∧ F ∈ defines tags i))))
    ∧ (get_related_files tags targets).Sorted (· ≤ ·)
    ∧ (get_related_files tags targets).Nodup := by
  rcases targets with _ | ⟨a, ts⟩
  · refine ⟨?_, by simp [get_related_files], by simp [get_related_files]⟩
    intro F
    simp [get_related_files, DefinedInTargets, ReferencedByTargets]
  · refine ⟨?_, ?_, ?_⟩
    · intro F
      simp only [get_related_files, List.isEmpty_cons, Bool.false_eq_true, if_false,
        sortStrings, List.mem_insertionSort, List.mem_dedup, List.mem_filter,
        List.mem_append, List.mem_flatMap, List.mem_map, decide_eq_true_eq,
        DefinedInTargets, ReferencedByTargets]
      constructor
      · rintro ⟨hmem, hnot⟩
        refine ⟨hnot, ?_⟩
        rcases hmem with ⟨i, ⟨t, ⟨ht, hrel, hkind⟩, hname⟩, hF⟩ |
          ⟨i, ⟨t, ⟨ht, hrel, hkind⟩, hname⟩, hF⟩
        · exact Or.inl ⟨i, ⟨t, ht, hrel, hkind, hname⟩, hF⟩
        · exact Or.inr ⟨i, ⟨t, ht, hrel, hkind, hname⟩, hF⟩
      · rintro ⟨hnot, hrest⟩
        refine ⟨?_, hnot⟩
        rcases hrest with ⟨i, ⟨t, ht, hrel, hkind, hname⟩, hF⟩ |
          ⟨i, ⟨t, ht, hrel, hkind, hname⟩, hF⟩
        · exact Or.inl ⟨i, ⟨t, ⟨ht, hrel, hkind⟩, hname⟩, hF⟩
        · exact Or.inr ⟨i, ⟨t, ⟨ht, hrel, hkind⟩, hname⟩, hF⟩
    · simp only [get_related_files, List.isEmpty_cons, Bool.false_eq_true, if_false,
        sortStrings]
      exact List.sorted_insertionSort _ _
    · simp only [get_related_files, List.isEmpty_cons, Bool.false_eq_true, if_false,
        sortStrings]
      exact (List.perm_insertionSort _ _).nodup_iff.mpr (List.nodup_dedup _)

/-- Claim C10: get_related_files reads only the tag state accumulated by
earlier scans; on a fresh instance (empty tag list) it returns the empty
list for every target set, whatever relationships exist on disk. -/
theorem related_files_fresh_instance_empty (target_rel_fnames : List String) :
    get_related_files [] target_rel_fnames = [] := by
  match target_rel_fnames with
  | [] => rfl
  | a :: ts => rfl

/-- Helper for claim C3: the sequential multiplier accumulation of lines
641-657 equals a product of independent conditional factors. -/
theorem use_mul_closed_form (tags : List TagInfo) (chat_rel : List String)
    (ident referencer : String) :
    use_mul tags chat_rel ident referencer =
      (if referencer ∈ chat_rel then (50 : ℚ) else 1) *
        ((if (is_snake ident || is_camel ident) = true ∧ 6 ≤ ident.length
            then (5 : ℚ) else 1) *
         ((if charsStart ['_'] ident.data = true then (1/10 : ℚ) else 1) *
          (if 5 < (defines tags ident).length then (1/10 : ℚ) else 1))) := by
  unfold use_mul identMul
  split_ifs <;> norm_num

/-- Claim C3 (amended): the edge weight of line 659, sqrt(num_refs) times
use_mul, is sqrt(reference_count) times a product of independent factors,
with the ×0.1 penalty applied once for a leading underscore and once more,
separately, for being defined in more than 5 files (so ×0.01 when both
conditions hold).  The weight lives on every edge referencer -> definer
added at line 663. -/
theorem edgeWeight_closed_form (tags : List TagInfo) (scanned chat_rel : List String)
    (ident referencer : String) :
    Real.sqrt (refCount tags scanned ident referencer) *
        ((use_mul tags chat_rel ident referencer : ℚ) : ℝ) =
      Real.sqrt (refCount tags scanned ident referencer) *
        ((if referencer ∈ chat_rel then (50 : ℝ) else 1) *
         ((if (is_snake ident || is_camel ident) = true ∧ 6 ≤ ident.length
             then (5 : ℝ) else 1) *
          ((if charsStart ['_'] ident.data = true then (1/10 : ℝ) else 1) *
           (if 5 < (defines tags ident).length then (1/10 : ℝ) else 1)))) := by
  rw [use_mul_closed_form]
  push_cast
  split_ifs <;> norm_num

/-- Counterexample to claim C3 as stated: for _ab (leading underscore,
defined in 6 > 5 files, referenced once by a non-chat file) the code
computes weight sqrt(1) * 0.01 while the claimed single ×0.1 penalty for
the disjunction gives sqrt(1) * 0.1. -/
theorem edgeWeight_counterexample :
    Real.sqrt (refCount tagsUnderscore scannedUnderscore "_ab" "r.py") *
        ((use_mul tagsUnderscore [] "_ab" "r.py" : ℚ) : ℝ)
      ≠ Real.sqrt (refCount tagsUnderscore scannedUnderscore "_ab" "r.py") *
        ((if ("r.py" : String) ∈ ([] : List String) then (50 : ℝ) else 1) *
         ((if (is_snake "_ab" || is_camel "_ab") = true ∧ 6 ≤ ("_ab" : String).length
             then (5 : ℝ) else 1) *
          (if charsStart ['_'] ("_ab" : String).data = true ∨
              5 < (defines tagsUnderscore "_ab").length
             then (1/10 : ℝ) else 1))) := by
  have h1 : refCount tagsUnderscore scannedUnderscore "_ab" "r.py" = 1 := by decide
  have h3 : charsStart ['_'] ("_ab" : String).data = true := by decide
  have h4 : ¬((is_snake "_ab" || is_camel "_ab") = true ∧ 6 ≤ ("_ab" : String).length) := by
    decide
  have hmul : use_mul tagsUnderscore [] "_ab" "r.py" = 1/100 := by
    have h2 : (defines tagsUnderscore "_ab").length = 6 := by decide
    simp only [use_mul, identMul, h2, h3, List.not_mem_nil, if_false, if_true, if_pos,
      if_neg h4]
    norm_num
  rw [h1, hmul]
  rw [if_neg (List.not_mem_nil "r.py"), if_neg h4, if_pos (Or.inl h3)]
  push_cast
  rw [Real.sqrt_one]
  norm_num

/-- Claim C7 (code bug): the token count of the fitter output is not
monotone in the budget.  With ten items of monotone rendering cost
(50 tokens for one item, 80 for two), budget 1 returns the two-item tree
(80 tokens) while the larger budget 50 returns the one-item tree
(50 tokens): when no prefix fits, the mid = 0 pass of lines 933-944 marks
is_better (0 tokens <= budget) and stores the stale tree variable left by
the previous iteration as best_tree while best_tokens stays 0, so the
returned string exceeds the budget. -/
theorem fit_output_not_monotone :
    outputTokens demoCost (fit_ranked_items demoCost 1 10) = 80
    ∧ outputTokens demoCost (fit_ranked_items demoCost 50 10) = 50
    ∧ ¬(outputTokens demoCost (fit_ranked_items demoCost 1 10)
        ≤ outputTokens demoCost (fit_ranked_items demoCost 50 10)) := by
  decide

/-- Claim C8 (code bug): the heuristic seed of line 905 (budget 100 over
average cost 25, clamped to 10 items, gives 4) is overwritten at line 913
before any prefix is rendered, so the first candidate prefix length the
loop evaluates is the plain bisection midpoint (0 + 10) / 2 = 5, not the
seed. -/
theorem fit_first_candidate_is_bisection :
    heuristicSeed 100 10 = 4
    ∧ (fit_ranked_items demoCost 100 10).2.head? = some 5
    ∧ (5 : Nat) ≠ 4 := by
  decide

/-- Helper: every tag appended by addGroup comes from the group it walks. -/
theorem addGroup_subset (g : List TagInfo) :
    ∀ (processed : List (String × Int × String)) (fnames : List String),
      ∀ t ∈ (addGroup g processed fnames).1, t ∈ g := by
  induction g with
  | nil =>
    intro processed fnames t ht
    simp [addGroup] at ht
  | cons x xs ih =>
    intro processed fnames t ht
    by_cases h : (x.rel_fname, x.line, x.name) ∈ processed
    · simp only [addGroup, if_pos h] at ht
      exact List.mem_cons_of_mem x (ih _ _ t ht)
    · simp only [addGroup, if_neg h] at ht
      rcases List.mem_cons.mp ht with h1 | h1
      · rw [h1]; exact List.mem_cons_self x xs
      · exact List.mem_cons_of_mem x (ih _ _ t h1)

/-- Helper: every tag produced by collectTags comes from a definitions
entry whose file key is not a chat file. -/
theorem collectTags_from_index (chat_rel : List String)
    (D : String → String → List TagInfo) (defs : List ((String × String) × ℚ)) :
    ∀ (processed : List (String × Int × String)) (fnames : List String),
      ∀ t ∈ (collectTags chat_rel D defs processed fnames).1,
        ∃ r i, r ∉ chat_rel ∧ t ∈ D r i := by
  induction defs with
  | nil =>
    intro processed fnames t ht
    simp [collectTags] at ht
  | cons hd rest ih =>
    obtain ⟨⟨r, i⟩, rank⟩ := hd
    intro processed fnames t ht
    by_cases h : r ∈ chat_rel
    · simp only [collectTags, if_pos h] at ht
      exact ih _ _ t ht
    · simp only [collectTags, if_neg h] at ht
      rcases List.mem_append.mp ht with h1 | h1
      · exact ⟨r, i, h, addGroup_subset _ _ _ t h1⟩
      · exact ih _ _ t h1

/-- Helper: a tag stored under the definitions key (rel, name) carries rel
as its own relative path. -/
theorem definitions_rel_eq (tags : List TagInfo) (r i : String) :
    ∀ t ∈ definitions tags r i, t.rel_fname = r := by
  intro t ht
  have h := (List.mem_filter.mp ht).2
  simp only [decide_eq_true_eq] at h
  exact h.2.1

/-- Claim C1: no TagInfo tuple and no bare-file placeholder in the list
returned by get_ranked_tags has a relative path equal to the relative path
of a focus file supplied in the call.  The hypothesis that the supplied
chat files exist mirrors the filtering RepoMapper.generate_map performs
(lines 1196-1202) before the paths ever reach the ranking. -/
theorem ranked_list_excludes_chat (root : String) (isFile : String → Bool)
    (chat_fnames other_fnames : List String) (tags : List TagInfo)
    (scanned : List String) (ranked_files : String → ℚ)
    (ranked_definitions : List ((String × String) × ℚ))
    (hchat : ∀ f ∈ chat_fnames, isFile f = true) :
    ∀ item ∈ get_ranked_tags root isFile chat_fnames other_fnames tags scanned
        ranked_files ranked_definitions,
      ∀ f ∈ chat_fnames, item.rel ≠ get_rel_fname f root := by
  intro item hitem f hf heq
  have hin : get_rel_fname f root ∈
      ((chat_fnames.filter isFile).map (fun g => get_rel_fname g root)).dedup := by
    rw [List.mem_dedup]
    exact List.mem_map.mpr ⟨f, List.mem_filter.mpr ⟨hf, hchat f hf⟩, rfl⟩
  simp only [get_ranked_tags, sortStrings, List.mem_append] at hitem
  rcases hitem with (h | h) | h
  · rcases List.mem_map.mp h with ⟨x, hx, hxeq⟩
    have hx2 := (List.mem_insertionSort _).mp hx
    have hx3 := (List.mem_filter.mp hx2).2
    simp only [decide_eq_true_eq] at hx3
    apply hx3.1
    have hrel : item.rel = x := by rw [← hxeq]; rfl
    rw [← hrel, heq]
    exact hin
  · rcases List.mem_map.mp h with ⟨t, ht, hteq⟩
    obtain ⟨r, i, hr, htD⟩ := collectTags_from_index _ _ _ _ _ t ht
    have hrel : t.rel_fname = r := definitions_rel_eq tags r i t htD
    apply hr
    have hrel2 : item.rel = t.rel_fname := by rw [← hteq]; rfl
    rw [← hrel, ← hrel2, heq]
    exact hin
  · rcases List.mem_map.mp h with ⟨x, hx, hxeq⟩
    have hx2 := (List.mem_insertionSort _).mp hx
    have hx3 := (List.mem_filter.mp hx2).2
    simp only [decide_eq_true_eq] at hx3
    apply hx3.1
    have hrel : item.rel = x := by rw [← hxeq]; rfl
    rw [← hrel, heq]
    exact hin

/-- Witness for C1 at a concrete state: with c.py in chat, the ranked tag
for a.py does not carry the chat relative path. -/
theorem ranked_list_excludes_chat_witness :
    RankedItem.rel (RankedItem.tag ⟨"a.py", "/repo/a.py", 0, "foo", "def"⟩)
      ≠ get_rel_fname "/repo/c.py" "/repo" :=
  ranked_list_excludes_chat "/repo" (fun _ => true) ["/repo/c.py"]
    ["/repo/README.md", "/repo/a.py"] tagsRepoDemo scannedDemoChat rankedFilesDemo
    rankedDefsDemo (fun _ _ => rfl)
    (RankedItem.tag ⟨"a.py", "/repo/a.py", 0, "foo", "def"⟩) (by decide)
    "/repo/c.py" (by decide)

/-- Claim C4 (code bug): in the real pipeline other_fnames are absolute
paths (RepoMapper.generate_map line 1208, RepoMap.get_repo_map line 360),
and is_important compares those absolute paths against an allow-list of
root-relative names, so filter_important_files never matches and the
important-file segment is always empty.  Concretely, a repository with
README.md (allow-listed, no tags) and a.py (one ranked definition) yields
a list whose first element is the ranked tag and whose only placeholder
for README.md trails at the end, although is_important would accept the
relative name README.md. -/
theorem important_placeholder_missing :
    get_ranked_tags "/repo" (fun _ => true) [] ["/repo/README.md", "/repo/a.py"]
        tagsRepoDemo scannedDemo rankedFilesDemo rankedDefsDemo
      = [RankedItem.tag ⟨"a.py", "/repo/a.py", 0, "foo", "def"⟩,
         RankedItem.placeholder "README.md"]
    ∧ is_important "README.md" = true
    ∧ is_important "/repo/README.md" = false := by
  decide

end EmigoRepoMap
